import Mathlib

/-!
# Movie streaming server: a shallow embedding

This file embeds the Go movie-streaming backend (Gin handlers over a MongoDB
store) as executable Lean definitions and proves properties of the embedded
handlers.

Modelling conventions:
* The document store is a list of documents in natural order; a filtered
  `Find` is `List.filter`, server-side sort/limit is an explicit stable sort
  followed by `List.take`, `FindOne` is `List.find?`, `UpdateOne` rewrites the
  first matching document, `InsertOne` appends.
* The goroutine-plus-channels-plus-select pattern is embedded as `boundedRace`:
  the unit of work either completes at a discrete time `t` with a success or
  error message, or never completes; the select resolves to the worker message
  when it arrives strictly before the external timeout, and to the timeout
  signal otherwise.  The environment (timing, store failure, hang) is the
  `StoreBehavior` argument of each handler; the logical content of the unit of
  work is computed from the store as in the source.
* The external timeout does not cancel the unit of work: the resulting store of a handler: the
  reflects the effect of the work whenever the work completes, even when the
  response already timed out.
-/

namespace MagicStream

/-- Genre value object, from the models package (embedded in the repository
README): numeric id plus name. -/
structure Genre where
  genre_id : Int
  genre_name : String
deriving DecidableEq

/-- Ranking value object, from the models package: numeric value plus
descriptive name. -/
structure Ranking where
  ranking_value : Int
  ranking_name : String
deriving DecidableEq

/-- Movie document, from the models package (the store-assigned object id is
not modelled; it never participates in handler logic).  `admin_review` and
`ranking` are optional pointers in the source. -/
structure Movie where
  imdb_id : String
  title : String
  poster_path : String
  youtube_id : String
  genre : List Genre
  admin_review : Option String
  ranking : Option Ranking
deriving DecidableEq

/-- Modelled from the spec: the models package file with the User struct is
not among the sources; fields follow section 3 of the spec and the field
accesses in the controllers (identifier, unique email, hashed password, names,
role, favourite genres, current token pair, timestamps). -/
structure User where
  user_id : String
  email : String
  password : String
  first_name : String
  last_name : String
  role : String
  favourite_genres : List Genre
  token : String
  refresh_token : String
  created_at : Nat
  updated_at : Nat
deriving DecidableEq

/-- Modelled from the spec: the models package login payload (email and
password submitted to the login handler). -/
structure UserLogin where
  email : String
  password : String
deriving DecidableEq

/-- Modelled from the spec: the models package login response projection
(identifier, names, email, role, favourite genres, both tokens; never the
password), as assigned field by field in the login handler. -/
structure UserResponse where
  user_id : String
  first_name : String
  last_name : String
  email : String
  role : String
  favourite_genres : List Genre
  token : String
  refresh_token : String
deriving DecidableEq

/-! ## Rating-name threshold table (database_connection.go, getRatingName) -/

/-- The fixed threshold table mapping a numeric rating to its descriptive
name, translated from the switch in `getRatingName`. -/
def getRatingName (rating : Int) : String :=
  if 9 ≤ rating then "excellent"
  else if 7 ≤ rating then "good"
  else if 5 ≤ rating then "average"
  else if 3 ≤ rating then "poor"
  else "terrible"

/-! ## Store-side sort on the ranking value -/

/-- Sort key used by the store for the descending sort on
ranking.ranking_value; a missing ranking never reaches the sort in the
handlers because every sorted query also filters on a minimum ranking. -/
def rankingValueOf (m : Movie) : Int :=
  match m.ranking with
  | some r => r.ranking_value
  | none => 0

/-- Stable insertion into a list sorted descending by ranking value. -/
def insertRankedDesc (m : Movie) : List Movie → List Movie
  | [] => [m]
  | x :: xs =>
    if rankingValueOf x < rankingValueOf m then m :: x :: xs
    else x :: insertRankedDesc m xs

/-- Stable sort, descending by ranking value: the server-side sort of the store. -/
def sortRankedDesc : List Movie → List Movie
  | [] => []
  | x :: xs => insertRankedDesc x (sortRankedDesc xs)

/-- A list is sorted descending by ranking value. -/
def SortedByRankingDesc (l : List Movie) : Prop :=
  List.Pairwise (fun a b => rankingValueOf b ≤ rankingValueOf a) l

/-! ## Query filters, translated from the bson filters at each call site -/

/-- Filter of the top-rated query: ranking.ranking_value at least 7 (a
document without a ranking does not match the dotted path). -/
def topRatedFilter (m : Movie) : Bool :=
  match m.ranking with
  | some r => 7 ≤ r.ranking_value
  | none => false

/-- Filter of the recommendation query: some embedded genre name is in the
list of favourite genre names, and ranking.ranking_value is at least 6. -/
def recFilter (genreNames : List String) (m : Movie) : Bool :=
  (m.genre.any (fun g => genreNames.contains g.genre_name)) &&
  (match m.ranking with
   | some r => 6 ≤ r.ranking_value
   | none => false)

/-- Characters of a string, lower-cased (for the case-insensitive regex). -/
def lowerChars (s : String) : List Char :=
  s.data.map Char.toLower

/-- The first list is a leading segment of the second. -/
def leadsCL : List Char → List Char → Bool
  | [], _ => true
  | _ :: _, [] => false
  | a :: as, b :: bs => a == b && leadsCL as bs

/-- The first list occurs contiguously inside the second. -/
def occursCL (pat : List Char) : List Char → Bool
  | [] => leadsCL pat []
  | b :: bs => leadsCL pat (b :: bs) || occursCL pat bs

/-- Filter of the by-genre query: the case-insensitive substring regex on the
embedded genre names. -/
def genreFilter (genreName : String) (m : Movie) : Bool :=
  m.genre.any (fun g => occursCL (lowerChars genreName) (lowerChars g.genre_name))

/-! ## The bounded worker race (goroutine, buffered channels, select) -/

/-- Message a unit of work sends on its completion channel: a success payload
or an error. -/
inductive WorkerMsg (α : Type) where
  | ok (v : α)
  | fail (e : String)
deriving DecidableEq

/-- Outcome of the select racing the worker channels against time.After. -/
inductive RaceOutcome (α : Type) where
  | ok (v : α)
  | fail (e : String)
  | timedOut
deriving DecidableEq

/-- The external timeout used by every select in the sources:
time.After(10 * time.Second). -/
def externalTimeoutSeconds : Nat := 10

/-- The select statement: given the completion of the worker (time of arrival and
message, or none when the work never completes), exactly one outcome is
produced.  The worker wins the race when it arrives strictly before the
external timeout; otherwise the timeout fires at the deadline.  The second
component is the time, in seconds, at which the select resolves. -/
def boundedRace {α : Type} (completion : Option (Nat × WorkerMsg α)) :
    RaceOutcome α × Nat :=
  match completion with
  | none => (RaceOutcome.timedOut, externalTimeoutSeconds)
  | some (t, m) =>
    if t < externalTimeoutSeconds then
      match m with
      | WorkerMsg.ok v => (RaceOutcome.ok v, t)
      | WorkerMsg.fail e => (RaceOutcome.fail e, t)
    else (RaceOutcome.timedOut, externalTimeoutSeconds)

/-- Environment of one store interaction: it completes normally at time `t`,
the store reports an error at time `t`, or the interaction hangs past every
deadline. -/
inductive StoreBehavior where
  | completesAt (t : Nat)
  | failsAt (t : Nat) (e : String)
  | hangs
deriving DecidableEq

/-- Completion seen by the select, given the environment and the value the
unit of work computes when the store coöperates. -/
def completionOf {α : Type} (b : StoreBehavior) (result : α) :
    Option (Nat × WorkerMsg α) :=
  match b with
  | StoreBehavior.completesAt t => some (t, WorkerMsg.ok result)
  | StoreBehavior.failsAt t e => some (t, WorkerMsg.fail e)
  | StoreBehavior.hangs => none

/-- Result of one handler invocation: whether a concurrent unit of work was
spawned before the response was produced, the response, and the resulting
store. -/
structure Handled (ρ : Type) (σ : Type) where
  spawned : Bool
  resp : ρ
  store : σ

/-! ## Catalog read handlers (database_connection.go) -/

/-- Response of GetMovies and GetMovie: the movie array (200), the store
error text (500), or the timeout message (408). -/
inductive MoviesResp where
  | ok (movies : List Movie)
  | storeError (e : String)
  | timedOut
deriving DecidableEq

/-- HTTP status of a GetMovies / GetMovie response. -/
def MoviesResp.status : MoviesResp → Nat
  | MoviesResp.ok _ => 200
  | MoviesResp.storeError _ => 500
  | MoviesResp.timedOut => 408

/-- Maps the race outcome of a movie-list worker to the response, as the
select arms do. -/
def listRaceResp (o : RaceOutcome (List Movie)) : MoviesResp :=
  match o with
  | RaceOutcome.ok ms => MoviesResp.ok ms
  | RaceOutcome.fail e => MoviesResp.storeError e
  | RaceOutcome.timedOut => MoviesResp.timedOut

/-- GetMovies: the unit of work reads the whole collection (empty filter),
raced against the 10 second external timeout. -/
def GetMovies (store : List Movie) (b : StoreBehavior) : MoviesResp :=
  listRaceResp (boundedRace (completionOf b store)).fst

/-- GetMovie: the unit of work reads all documents whose imdb_id equals the
path parameter (a list, not single-or-none), raced against the timeout. -/
def GetMovie (store : List Movie) (id : String) (b : StoreBehavior) : MoviesResp :=
  listRaceResp
    (boundedRace (completionOf b (store.filter (fun m => m.imdb_id == id)))).fst

/-- The top-rated query: filter ranking value at least 7, server-side sort
descending by ranking value, limit 20. -/
def topRatedQuery (store : List Movie) : List Movie :=
  (sortRankedDesc (store.filter topRatedFilter)).take 20

/-- Response of GetTopRatedMovies: payload carries the list, total_found and
minimum_rating as in the JSON payload of the handler. -/
inductive TopRatedResp where
  | ok (movies : List Movie) (totalFound : Nat) (minimumRating : Int)
  | storeError (e : String)
  | timedOut
deriving DecidableEq

/-- HTTP status of a GetTopRatedMovies response. -/
def TopRatedResp.status : TopRatedResp → Nat
  | TopRatedResp.ok _ _ _ => 200
  | TopRatedResp.storeError _ => 500
  | TopRatedResp.timedOut => 408

/-- GetTopRatedMovies: the top-rated query raced against the timeout. -/
def GetTopRatedMovies (store : List Movie) (b : StoreBehavior) : TopRatedResp :=
  match (boundedRace (completionOf b (topRatedQuery store))).fst with
  | RaceOutcome.ok ms => TopRatedResp.ok ms ms.length 7
  | RaceOutcome.fail e => TopRatedResp.storeError e
  | RaceOutcome.timedOut => TopRatedResp.timedOut

/-- The by-genre query: case-insensitive substring filter on embedded genre
names, limit 20, no sort (natural store order). -/
def genreQuery (store : List Movie) (genreName : String) : List Movie :=
  (store.filter (genreFilter genreName)).take 20

/-- Response of GetMoviesByGenre. -/
inductive GenreResp where
  | badRequest
  | ok (movies : List Movie) (genre : String) (totalFound : Nat)
  | storeError (e : String)
  | timedOut
deriving DecidableEq

/-- HTTP status of a GetMoviesByGenre response. -/
def GenreResp.status : GenreResp → Nat
  | GenreResp.badRequest => 400
  | GenreResp.ok _ _ _ => 200
  | GenreResp.storeError _ => 500
  | GenreResp.timedOut => 408

/-- GetMoviesByGenre: an empty genre path parameter is rejected synchronously
with 400; otherwise the by-genre query is raced against the timeout. -/
def GetMoviesByGenre (store : List Movie) (genreName : String)
    (b : StoreBehavior) : Handled GenreResp (List Movie) :=
  if genreName == "" then
    { spawned := false, resp := GenreResp.badRequest, store := store }
  else
    let resp :=
      match (boundedRace (completionOf b (genreQuery store genreName))).fst with
      | RaceOutcome.ok ms => GenreResp.ok ms genreName ms.length
      | RaceOutcome.fail e => GenreResp.storeError e
      | RaceOutcome.timedOut => GenreResp.timedOut
    { spawned := true, resp := resp, store := store }

/-! ## Movie validation (models package tags, embedded in the README) -/

/-- Modelled from the spec: the url tag on poster_path comes from the external
validator library (a well-formed resource locator check, a black box at the
boundary); modelled as the presence of a scheme separator. -/
def wellFormedUrl (s : String) : Bool :=
  occursCL ("://".data) s.data

/-- Genre tag validation: genre_id required (nonzero), genre_name required
with length between 2 and 100. -/
def validGenre (g : Genre) : Bool :=
  g.genre_id != 0 && g.genre_name != "" &&
  decide (2 ≤ g.genre_name.length) && decide (g.genre_name.length ≤ 100)

/-- Movie struct tag validation, from the models package: imdb_id required;
title required, length 2 to 500; poster_path required and a well-formed url;
youtube_id required; genre required (non-empty) with each element valid. -/
def validateMovie (m : Movie) : Bool :=
  m.imdb_id != "" &&
  decide (2 ≤ m.title.length) && decide (m.title.length ≤ 500) &&
  m.poster_path != "" && wellFormedUrl m.poster_path &&
  m.youtube_id != "" &&
  !m.genre.isEmpty && m.genre.all validGenre

/-- Modelled from the spec: the error detail text of the validator library is
opaque at the boundary; modelled as a fixed string (distinct from the
duplicate-email message matched in the registration handler). -/
def validatorErrorText : String := "validation failed"

/-! ## MakeMovies (create) -/

/-- Response of MakeMovies. -/
inductive MakeResp where
  | invalidJson
  | validationFailed (details : String)
  | created
  | storeError (e : String)
  | timedOut
deriving DecidableEq

/-- HTTP status of a MakeMovies response. -/
def MakeResp.status : MakeResp → Nat
  | MakeResp.invalidJson => 400
  | MakeResp.validationFailed _ => 400
  | MakeResp.created => 201
  | MakeResp.storeError _ => 500
  | MakeResp.timedOut => 408

/-- MakeMovies: JSON binding and struct validation are synchronous; only then
is the insert spawned and raced against the timeout.  When the insert
completes, the document is appended even if the response already timed out
(the goroutine is not cancelled). -/
def MakeMovies (store : List Movie) (body : Option Movie)
    (b : StoreBehavior) : Handled MakeResp (List Movie) :=
  match body with
  | none => { spawned := false, resp := MakeResp.invalidJson, store := store }
  | some movie =>
    if !(validateMovie movie) then
      { spawned := false, resp := MakeResp.validationFailed validatorErrorText,
        store := store }
    else
      let newStore :=
        match b with
        | StoreBehavior.completesAt _ => store ++ [movie]
        | _ => store
      let resp :=
        match (boundedRace (completionOf b true)).fst with
        | RaceOutcome.ok _ => MakeResp.created
        | RaceOutcome.fail e => MakeResp.storeError e
        | RaceOutcome.timedOut => MakeResp.timedOut
      { spawned := true, resp := resp, store := newStore }

/-! ## AdminReviewUpdate (review and rating update; no worker race) -/

/-- The request body of AdminReviewUpdate, with tags required on the review
text and required,min=1,max=10 on the rating. -/
structure AdminReviewRequest where
  admin_review : String
  rating : Int
deriving DecidableEq

/-- Validation of the review request: required on a string is non-emptiness,
required on an int rejects the zero value, then the min and max bounds. -/
def validateAdminReviewRequest (r : AdminReviewRequest) : Bool :=
  r.admin_review != "" && r.rating != 0 &&
  decide (1 ≤ r.rating) && decide (r.rating ≤ 10)

/-- The $set document applied to a matched movie: admin_review and the
embedded ranking with the derived ranking name. -/
def applyAdminUpdate (req : AdminReviewRequest) (rankingName : String)
    (m : Movie) : Movie :=
  { m with
    admin_review := some req.admin_review,
    ranking := some { ranking_value := req.rating, ranking_name := rankingName } }

/-- UpdateOne: rewrite the first document matching the imdb_id filter, leaving
the rest unchanged. -/
def updateFirstMatch (id : String) (f : Movie → Movie) :
    List Movie → List Movie
  | [] => []
  | m :: ms =>
    if m.imdb_id == id then f m :: ms
    else m :: updateFirstMatch id f ms

/-- Response of AdminReviewUpdate.  The handler performs its store update
synchronously under the internal 10 second context deadline; it has no
timeout arm, so no 408 response exists for it. -/
inductive AdminResp where
  | missingId
  | invalidJson
  | validationFailed (details : String)
  | updateError
  | notFound
  | ok (admin_review : String) (rating : Int) (ranking_name : String)
deriving DecidableEq

/-- HTTP status of an AdminReviewUpdate response. -/
def AdminResp.status : AdminResp → Nat
  | AdminResp.missingId => 400
  | AdminResp.invalidJson => 400
  | AdminResp.validationFailed _ => 400
  | AdminResp.updateError => 500
  | AdminResp.notFound => 404
  | AdminResp.ok _ _ _ => 200

/-- AdminReviewUpdate: path check, JSON binding and validation are
synchronous; the ranking name is derived by the threshold table; UpdateOne
runs synchronously (no goroutine, no select): when the store hangs, the
internal context deadline makes UpdateOne return an error, answered 500. -/
def AdminReviewUpdate (store : List Movie) (movieId : String)
    (body : Option AdminReviewRequest) (b : StoreBehavior) :
    AdminResp × List Movie :=
  if movieId == "" then (AdminResp.missingId, store)
  else
    match body with
    | none => (AdminResp.invalidJson, store)
    | some req =>
      if !(validateAdminReviewRequest req) then
        (AdminResp.validationFailed validatorErrorText, store)
      else
        let rankingName := getRatingName req.rating
        match b with
        | StoreBehavior.failsAt _ _ => (AdminResp.updateError, store)
        | StoreBehavior.hangs => (AdminResp.updateError, store)
        | StoreBehavior.completesAt _ =>
          if store.any (fun m => m.imdb_id == movieId) then
            (AdminResp.ok req.admin_review req.rating rankingName,
             updateFirstMatch movieId (applyAdminUpdate req rankingName) store)
          else (AdminResp.notFound, store)

/-! ## Recommendations (getUserById and GetRecommendedMovies) -/

/-- getUserById: a synchronous FindOne on user_id under the internal 10
second deadline; any error (no document, store failure, or the deadline on a
hanging store) yields none. -/
def getUserById (userStore : List User) (userId : String)
    (b : StoreBehavior) : Option User :=
  match b with
  | StoreBehavior.completesAt _ => userStore.find? (fun u => u.user_id == userId)
  | _ => none

/-- The recommendation query: genre intersection with the favourites and
ranking value at least 6, server-side sort descending by ranking value,
limit 10. -/
def recQuery (store : List Movie) (genreNames : List String) : List Movie :=
  (sortRankedDesc (store.filter (recFilter genreNames))).take 10

/-- Response of GetRecommendedMovies.  `emptyState` is the 200 response with
the explanatory message, an empty movie list and empty user_genres. -/
inductive RecResp where
  | missingUserId
  | userNotFound
  | emptyState
  | ok (movies : List Movie) (basedOnGenres : List String) (totalFound : Nat)
  | storeError (e : String)
  | timedOut
deriving DecidableEq

/-- HTTP status of a GetRecommendedMovies response. -/
def RecResp.status : RecResp → Nat
  | RecResp.missingUserId => 400
  | RecResp.userNotFound => 404
  | RecResp.emptyState => 200
  | RecResp.ok _ _ _ => 200
  | RecResp.storeError _ => 500
  | RecResp.timedOut => 408

/-- GetRecommendedMovies: path check, then the synchronous user lookup (any
lookup failure answers 404); the favourite genre names are extracted; if none,
the empty-state 200 response is returned without touching the catalog;
otherwise the recommendation query is raced against the timeout. -/
def GetRecommendedMovies (userStore : List User) (movieStore : List Movie)
    (userId : String) (bUser bMovies : StoreBehavior) : RecResp :=
  if userId == "" then RecResp.missingUserId
  else
    match getUserById userStore userId bUser with
    | none => RecResp.userNotFound
    | some user =>
      let genreNames := user.favourite_genres.map (fun g => g.genre_name)
      if genreNames.isEmpty then RecResp.emptyState
      else
        match (boundedRace (completionOf bMovies
                 (recQuery movieStore genreNames))).fst with
        | RaceOutcome.ok ms => RecResp.ok ms genreNames ms.length
        | RaceOutcome.fail e => RecResp.storeError e
        | RaceOutcome.timedOut => RecResp.timedOut

/-! ## Credential and token primitives (external collaborators) -/

/-- Modelled from the spec: bcrypt hashing is an opaque one-way capability at
the boundary; modelled as an injective tagging, so a hash is never the empty
string and verification succeeds only against the hashed password. -/
def HashPassword (password : String) : String :=
  "bcrypt." ++ password

/-- Modelled from the spec: bcrypt verification of a submitted password
against a stored hash succeeds exactly when the hash was produced from that
password. -/
def compareHashAndPassword (hash password : String) : Bool :=
  hash == HashPassword password

/-- Modelled from the spec: the utils token functions are not among the
sources; per section 4.2, access issuance is a deterministic signing
operation over the claims (email, first name, last name, role, user id).
Signing failure is not modelled. -/
def GenerateAccessToken (email firstName lastName role userId : String) :
    String :=
  "access." ++ email ++ "." ++ firstName ++ "." ++ lastName ++ "." ++
    role ++ "." ++ userId

/-- Modelled from the spec: refresh issuance over the same claim shape,
differing only in expiry policy. -/
def GenerateRefreshToken (email firstName lastName role userId : String) :
    String :=
  "refresh." ++ email ++ "." ++ firstName ++ "." ++ lastName ++ "." ++
    role ++ "." ++ userId

/-- Modelled from the spec: recordTokens persists the latest token pair onto
the record of the user, overwriting any prior pair. -/
def UpdateAllTokens (store : List User) (userId token refreshToken : String) :
    List User :=
  store.map (fun u =>
    if u.user_id == userId then
      { u with token := token, refresh_token := refreshToken }
    else u)

/-! ## RegisterUser (user_controller.go) -/

/-- Modelled from the spec: the models package User validation tags are not
among the sources; per section 4.3 registration validates required fields
(email, password, first and last name); the length bounds the spec leaves
unspecified are not modelled beyond required-ness. -/
def validateUser (u : User) : Bool :=
  u.email != "" && u.password != "" && u.first_name != "" && u.last_name != ""

/-- The error text sent on the channel when the uniqueness count finds an
existing record, matched verbatim in the select arm to pick the 409. -/
def duplicateEmailText : String := "User with this email already exists"

/-- The populated user record the goroutine builds (also visible to the
handler through the shared closure variable when the success arm runs). -/
def registeredUser (user : User) (hashed newId : String) (now : Nat) : User :=
  { user with
    user_id := newId, created_at := now, updated_at := now, password := hashed }

/-- The body of the registration goroutine: the uniqueness count, then
assignment of identifier, timestamps and hashed password, then struct
validation, then the insert.  Returns the channel message and the store after
the unit of work has run. -/
def registerWorkCore (store : List User) (user : User)
    (hashed newId : String) (now : Nat) : WorkerMsg Bool × List User :=
  if 0 < store.countP (fun u => u.email == user.email) then
    (WorkerMsg.fail duplicateEmailText, store)
  else
    let u := registeredUser user hashed newId now
    if !(validateUser u) then (WorkerMsg.fail validatorErrorText, store)
    else (WorkerMsg.ok true, store ++ [u])

/-- Response of RegisterUser.  The 201 payload carries the token and the
public projection (id, username, email, role, favourite genres). -/
inductive RegisterResp where
  | invalidJson
  | hashError
  | conflict (msg : String)
  | serverError (msg : String)
  | created (token : String) (id : String) (username : String)
      (email : String) (role : String) (favouriteGenres : List Genre)
  | timedOut
deriving DecidableEq

/-- HTTP status of a RegisterUser response. -/
def RegisterResp.status : RegisterResp → Nat
  | RegisterResp.invalidJson => 400
  | RegisterResp.hashError => 500
  | RegisterResp.conflict _ => 409
  | RegisterResp.serverError _ => 500
  | RegisterResp.created _ _ _ _ _ _ => 201
  | RegisterResp.timedOut => 408

/-- RegisterUser: JSON binding and password hashing are synchronous; the
uniqueness count, struct validation and insert all run inside the spawned
goroutine, whose channel message is raced against the timeout.  An error
message equal to the duplicate-email text answers 409, any other error 500.
The store effect of the work persists even when the response timed out. -/
def RegisterUser (store : List User) (body : Option User)
    (newId : String) (now : Nat) (b : StoreBehavior) :
    Handled RegisterResp (List User) :=
  match body with
  | none => { spawned := false, resp := RegisterResp.invalidJson, store := store }
  | some user =>
    let hashed := HashPassword user.password
    let core := registerWorkCore store user hashed newId now
    let newStore :=
      match b with
      | StoreBehavior.completesAt _ => core.snd
      | _ => store
    let completion :=
      match b with
      | StoreBehavior.completesAt t => some (t, core.fst)
      | StoreBehavior.failsAt t e => some (t, WorkerMsg.fail e)
      | StoreBehavior.hangs => none
    let resp :=
      match (boundedRace completion).fst with
      | RaceOutcome.ok _ =>
        let u := registeredUser user hashed newId now
        RegisterResp.created
          (GenerateAccessToken u.email u.first_name u.last_name u.role u.user_id)
          u.user_id (u.first_name ++ " " ++ u.last_name) u.email u.role
          u.favourite_genres
      | RaceOutcome.fail e =>
        if e == duplicateEmailText then RegisterResp.conflict e
        else RegisterResp.serverError e
      | RaceOutcome.timedOut => RegisterResp.timedOut
    { spawned := true, resp := resp, store := newStore }

/-! ## Login (user_controller.go) -/

/-- Result of the FindOne-by-email plus Decode step in the login goroutine:
a decoded user, the no-matching-document error, or any other decode or store
error. -/
inductive LookupResult where
  | found (u : User)
  | noDocuments
  | otherError (e : String)
deriving DecidableEq

/-- FindOne on the email filter: the first user in natural order with the
submitted email, or the no-document error. -/
def findByEmail (store : List User) (email : String) : LookupResult :=
  match store.find? (fun u => u.email == email) with
  | some u => LookupResult.found u
  | none => LookupResult.noDocuments

/-- The zero-valued User struct the goroutine declares before decoding into
it; a failed decode leaves it zero-valued. -/
def zeroUser : User :=
  { user_id := "", email := "", password := "", first_name := "",
    last_name := "", role := "", favourite_genres := [], token := "",
    refresh_token := "", created_at := 0, updated_at := 0 }

/-- Whether the Decode step itself misbehaves: either it reflects the store
content, or it fails with an error other than the no-document condition. -/
inductive DecodeMode where
  | fromStore
  | decodeError (e : String)
deriving DecidableEq

/-- The body of the login goroutine.  Only the no-document error returns
early with the invalid-credentials message; any other decode error falls
through (the source has no return in that branch), so the password is
compared against the empty hash of the zero-valued user.  On success both tokens
are issued, the stored pair is overwritten, and the response projection is
sent. -/
def loginWorkCore (store : List User) (lr : LookupResult) (lg : UserLogin) :
    WorkerMsg UserResponse × List User :=
  match lr with
  | LookupResult.noDocuments => (WorkerMsg.fail "Invalid credentials", store)
  | _ =>
    let user :=
      match lr with
      | LookupResult.found u => u
      | _ => zeroUser
    if !(compareHashAndPassword user.password lg.password) then
      (WorkerMsg.fail "Wrong Password", store)
    else
      let token := GenerateAccessToken user.email user.first_name
        user.last_name user.role user.user_id
      let refreshToken := GenerateRefreshToken user.email user.first_name
        user.last_name user.role user.user_id
      let store2 := UpdateAllTokens store user.user_id token refreshToken
      (WorkerMsg.ok
        { user_id := user.user_id, first_name := user.first_name,
          last_name := user.last_name, email := user.email, role := user.role,
          favourite_genres := user.favourite_genres, token := token,
          refresh_token := refreshToken }, store2)

/-- Response of Login.  Every error channel message answers 401 with the
text of the error. -/
inductive LoginResp where
  | invalidJson
  | ok (r : UserResponse)
  | unauthorized (msg : String)
  | timedOut
deriving DecidableEq

/-- HTTP status of a Login response. -/
def LoginResp.status : LoginResp → Nat
  | LoginResp.invalidJson => 400
  | LoginResp.ok _ => 200
  | LoginResp.unauthorized _ => 401
  | LoginResp.timedOut => 408

/-- Login: JSON binding is synchronous; the lookup, password verification,
token issuance and token-record update run inside the spawned goroutine,
raced against the timeout.  The store effect of the work persists even when the
response timed out. -/
def Login (store : List User) (body : Option UserLogin) (dec : DecodeMode)
    (b : StoreBehavior) : Handled LoginResp (List User) :=
  match body with
  | none => { spawned := false, resp := LoginResp.invalidJson, store := store }
  | some lg =>
    let lr :=
      match dec with
      | DecodeMode.fromStore => findByEmail store lg.email
      | DecodeMode.decodeError e => LookupResult.otherError e
    let core := loginWorkCore store lr lg
    let newStore :=
      match b with
      | StoreBehavior.completesAt _ => core.snd
      | _ => store
    let completion :=
      match b with
      | StoreBehavior.completesAt t => some (t, core.fst)
      | StoreBehavior.failsAt t e => some (t, WorkerMsg.fail e)
      | StoreBehavior.hangs => none
    let resp :=
      match (boundedRace completion).fst with
      | RaceOutcome.ok r => LoginResp.ok r
      | RaceOutcome.fail e => LoginResp.unauthorized e
      | RaceOutcome.timedOut => LoginResp.timedOut
    { spawned := true, resp := resp, store := newStore }

/-! ## Helper lemmas on the store-side sort and queries -/

theorem mem_insertRankedDesc {a m : Movie} {l : List Movie} :
    a ∈ insertRankedDesc m l ↔ a = m ∨ a ∈ l := by
  induction l with
  | nil => simp [insertRankedDesc]
  | cons x xs ih =>
    by_cases hx : rankingValueOf x < rankingValueOf m
    · simp [insertRankedDesc, hx, List.mem_cons]
    · simp only [insertRankedDesc, if_neg hx, List.mem_cons, ih]
      tauto

theorem sorted_insertRankedDesc {m : Movie} {l : List Movie}
    (h : SortedByRankingDesc l) : SortedByRankingDesc (insertRankedDesc m l) := by
  induction l with
  | nil =>
    unfold SortedByRankingDesc insertRankedDesc
    simp
  | cons x xs ih =>
    unfold SortedByRankingDesc at h
    rw [List.pairwise_cons] at h
    obtain ⟨hx, hxs⟩ := h
    by_cases hlt : rankingValueOf x < rankingValueOf m
    · unfold SortedByRankingDesc insertRankedDesc
      rw [if_pos hlt, List.pairwise_cons]
      refine ⟨?_, ?_⟩
      · intro b hb
        rcases List.mem_cons.mp hb with rfl | hbx
        · exact le_of_lt hlt
        · exact le_trans (hx b hbx) (le_of_lt hlt)
      · rw [List.pairwise_cons]
        exact ⟨hx, hxs⟩
    · unfold SortedByRankingDesc insertRankedDesc
      rw [if_neg hlt, List.pairwise_cons]
      refine ⟨?_, ih hxs⟩
      intro b hb
      rcases mem_insertRankedDesc.mp hb with rfl | hbxs
      · exact le_of_not_lt hlt
      · exact hx b hbxs

theorem sorted_sortRankedDesc (l : List Movie) :
    SortedByRankingDesc (sortRankedDesc l) := by
  induction l with
  | nil =>
    unfold SortedByRankingDesc sortRankedDesc
    exact List.Pairwise.nil
  | cons x xs ih =>
    show SortedByRankingDesc (insertRankedDesc x (sortRankedDesc xs))
    exact sorted_insertRankedDesc ih

theorem mem_sortRankedDesc {a : Movie} {l : List Movie} :
    a ∈ sortRankedDesc l ↔ a ∈ l := by
  induction l with
  | nil => simp [sortRankedDesc]
  | cons x xs ih =>
    show a ∈ insertRankedDesc x (sortRankedDesc xs) ↔ _
    simp [mem_insertRankedDesc, ih]

theorem sortedByRankingDesc_take {l : List Movie} (n : Nat)
    (h : SortedByRankingDesc l) : SortedByRankingDesc (l.take n) := by
  unfold SortedByRankingDesc at h ⊢
  exact h.sublist (List.take_sublist n l)

theorem topRatedQuery_mem {store : List Movie} {m : Movie}
    (h : m ∈ topRatedQuery store) :
    ∃ r, m.ranking = some r ∧ 7 ≤ r.ranking_value := by
  unfold topRatedQuery at h
  have h1 : m ∈ sortRankedDesc (store.filter topRatedFilter) :=
    List.take_subset _ _ h
  have h2 : m ∈ store.filter topRatedFilter := mem_sortRankedDesc.mp h1
  have h3 : topRatedFilter m = true := List.of_mem_filter h2
  unfold topRatedFilter at h3
  cases hr : m.ranking with
  | none => rw [hr] at h3; cases h3
  | some r =>
    rw [hr] at h3
    exact ⟨r, rfl, of_decide_eq_true h3⟩

theorem topRatedQuery_sorted (store : List Movie) :
    SortedByRankingDesc (topRatedQuery store) :=
  sortedByRankingDesc_take 20 (sorted_sortRankedDesc _)

theorem topRatedQuery_length (store : List Movie) :
    (topRatedQuery store).length ≤ 20 := by
  unfold topRatedQuery
  rw [List.length_take]
  exact Nat.min_le_left _ _

theorem boundedRace_completionOf_ok {α : Type} {b : StoreBehavior}
    {res v : α} (h : (boundedRace (completionOf b res)).fst = RaceOutcome.ok v) :
    v = res := by
  cases b with
  | completesAt t =>
    by_cases ht : t < externalTimeoutSeconds
    · simp [completionOf, boundedRace, ht] at h
      exact h.symm
    · simp [completionOf, boundedRace, ht] at h
  | failsAt t e =>
    by_cases ht : t < externalTimeoutSeconds
    · simp [completionOf, boundedRace, ht] at h
    · simp [completionOf, boundedRace, ht] at h
  | hangs =>
    simp [completionOf, boundedRace] at h

theorem getTopRatedMovies_ok_inv {store : List Movie} {b : StoreBehavior}
    {ms : List Movie} {tf : Nat} {mr : Int}
    (h : GetTopRatedMovies store b = TopRatedResp.ok ms tf mr) :
    ms = topRatedQuery store := by
  unfold GetTopRatedMovies at h
  cases ho : (boundedRace (completionOf b (topRatedQuery store))).fst with
  | ok v =>
    rw [ho] at h
    simp only [TopRatedResp.ok.injEq] at h
    obtain ⟨h1, -, -⟩ := h
    rw [← h1]
    exact boundedRace_completionOf_ok ho
  | fail e =>
    rw [ho] at h
    simp at h
  | timedOut =>
    rw [ho] at h
    simp at h

/-- A sample movie with the given external id and ranking value, used by the
concrete witnesses. -/
def movieOfRank (id : String) (rv : Int) : Movie :=
  { imdb_id := id, title := "Title " ++ id,
    poster_path := "http://img/" ++ id, youtube_id := "yt" ++ id,
    genre := [{ genre_id := 1, genre_name := "Action" }],
    admin_review := none,
    ranking := some { ranking_value := rv, ranking_name := getRatingName rv } }

/-- C4: for every catalog state, the list returned by the top-rated handler
contains no item with ranking value below 7, is sorted descending by ranking
value, and has length at most 20. -/
theorem getTopRatedMovies_spec (store : List Movie) (b : StoreBehavior)
    (ms : List Movie) (tf : Nat) (mr : Int)
    (h : GetTopRatedMovies store b = TopRatedResp.ok ms tf mr) :
    (∀ m ∈ ms, ∃ r, m.ranking = some r ∧ 7 ≤ r.ranking_value) ∧
    SortedByRankingDesc ms ∧ ms.length ≤ 20 := by
  have hms := getTopRatedMovies_ok_inv h
  subst hms
  exact ⟨fun m hm => topRatedQuery_mem hm, topRatedQuery_sorted store,
    topRatedQuery_length store⟩

/-- Witness for C4 at a concrete catalog: three movies ranked 9, 5 and 8;
the handler answers with the two movies ranked at least 7 in descending
order, and the proved properties hold of that answer. -/
theorem getTopRatedMovies_spec_witness :
    (GetTopRatedMovies [movieOfRank "tt9" 9, movieOfRank "tt5" 5, movieOfRank "tt8" 8]
        (StoreBehavior.completesAt 0)
      = TopRatedResp.ok [movieOfRank "tt9" 9, movieOfRank "tt8" 8] 2 7) ∧
    ((∀ m ∈ [movieOfRank "tt9" 9, movieOfRank "tt8" 8],
        ∃ r, m.ranking = some r ∧ 7 ≤ r.ranking_value) ∧
     SortedByRankingDesc [movieOfRank "tt9" 9, movieOfRank "tt8" 8] ∧
     ([movieOfRank "tt9" 9, movieOfRank "tt8" 8] : List Movie).length ≤ 20) :=
  ⟨by decide,
   getTopRatedMovies_spec
     [movieOfRank "tt9" 9, movieOfRank "tt5" 5, movieOfRank "tt8" 8]
     (StoreBehavior.completesAt 0)
     [movieOfRank "tt9" 9, movieOfRank "tt8" 8] 2 7 (by decide)⟩

theorem recQuery_mem {store : List Movie} {gs : List String} {m : Movie}
    (h : m ∈ recQuery store gs) :
    (∃ g ∈ m.genre, g.genre_name ∈ gs) ∧
    ∃ r, m.ranking = some r ∧ 6 ≤ r.ranking_value := by
  unfold recQuery at h
  have h1 : m ∈ sortRankedDesc (store.filter (recFilter gs)) :=
    List.take_subset _ _ h
  have h2 : m ∈ store.filter (recFilter gs) := mem_sortRankedDesc.mp h1
  have h3 : recFilter gs m = true := List.of_mem_filter h2
  unfold recFilter at h3
  rw [Bool.and_eq_true] at h3
  obtain ⟨hg, hr⟩ := h3
  constructor
  · rw [List.any_eq_true] at hg
    obtain ⟨g, hgm, hgn⟩ := hg
    exact ⟨g, hgm, by simpa using hgn⟩
  · cases hrk : m.ranking with
    | none => rw [hrk] at hr; cases hr
    | some r =>
      rw [hrk] at hr
      exact ⟨r, rfl, of_decide_eq_true hr⟩

theorem recQuery_sorted (store : List Movie) (gs : List String) :
    SortedByRankingDesc (recQuery store gs) :=
  sortedByRankingDesc_take 10 (sorted_sortRankedDesc _)

theorem recQuery_length (store : List Movie) (gs : List String) :
    (recQuery store gs).length ≤ 10 := by
  unfold recQuery
  rw [List.length_take]
  exact Nat.min_le_left _ _

theorem getRecommendedMovies_ok_inv {userStore : List User}
    {movieStore : List Movie} {userId : String} {bU bM : StoreBehavior}
    {user : User} {ms : List Movie} {gs : List String} {tf : Nat}
    (hu : getUserById userStore userId bU = some user)
    (h : GetRecommendedMovies userStore movieStore userId bU bM
           = RecResp.ok ms gs tf) :
    gs = user.favourite_genres.map (fun g => g.genre_name) ∧
    ms = recQuery movieStore gs := by
  unfold GetRecommendedMovies at h
  by_cases hid : userId == ""
  · rw [if_pos hid] at h
    cases h
  · rw [if_neg hid, hu] at h
    simp only at h
    by_cases he : (user.favourite_genres.map (fun g => g.genre_name)).isEmpty
    · rw [if_pos he] at h
      cases h
    · rw [if_neg he] at h
      cases ho : (boundedRace (completionOf bM (recQuery movieStore
          (user.favourite_genres.map (fun g => g.genre_name))))).fst with
      | ok v =>
        rw [ho] at h
        simp only [RecResp.ok.injEq] at h
        obtain ⟨h1, h2, -⟩ := h
        have hv := boundedRace_completionOf_ok ho
        constructor
        · exact h2.symm
        · rw [← h1, hv, h2]
      | fail e =>
        rw [ho] at h
        simp at h
      | timedOut =>
        rw [ho] at h
        simp at h

/-- C5: for every user whose favourite-genre list is non-empty, the
recommendation handler returns only movies whose genre-name set intersects
the favourite genre names and whose ranking value is at least 6, sorted
descending by ranking value and capped at 10 items. -/
theorem getRecommendedMovies_spec (userStore : List User)
    (movieStore : List Movie) (userId : String) (bU bM : StoreBehavior)
    (user : User) (ms : List Movie) (gs : List String) (tf : Nat)
    (hu : getUserById userStore userId bU = some user)
    (hne : user.favourite_genres ≠ [])
    (h : GetRecommendedMovies userStore movieStore userId bU bM
           = RecResp.ok ms gs tf) :
    gs = user.favourite_genres.map (fun g => g.genre_name) ∧ gs ≠ [] ∧
    (∀ m ∈ ms, (∃ g ∈ m.genre, g.genre_name ∈ gs) ∧
       ∃ r, m.ranking = some r ∧ 6 ≤ r.ranking_value) ∧
    SortedByRankingDesc ms ∧ ms.length ≤ 10 := by
  obtain ⟨hg, hm⟩ := getRecommendedMovies_ok_inv hu h
  subst hm
  refine ⟨hg, ?_, fun m hm => recQuery_mem hm, recQuery_sorted _ _,
    recQuery_length _ _⟩
  rw [hg]
  simp only [ne_eq, List.map_eq_nil_iff]
  exact hne

/-- A sample user for the recommendation witnesses: favourite genre Action,
identifier u1. -/
def sampleUser : User :=
  { user_id := "u1", email := "u1@x.y", password := HashPassword "pw1",
    first_name := "Ada", last_name := "L", role := "user",
    favourite_genres := [{ genre_id := 1, genre_name := "Action" }],
    token := "", refresh_token := "", created_at := 0, updated_at := 0 }

/-- Witness for C5 at a concrete pair of stores: the user favours Action and
the catalog holds Action movies ranked 9 and 5 and a Drama movie ranked 8;
only the Action movie ranked 9 is recommended. -/
theorem getRecommendedMovies_spec_witness :
    (getUserById [sampleUser] "u1" (StoreBehavior.completesAt 0)
       = some sampleUser) ∧
    sampleUser.favourite_genres ≠ [] ∧
    (GetRecommendedMovies [sampleUser]
        [movieOfRank "tt9" 9, movieOfRank "tt5" 5,
         { movieOfRank "tt8" 8 with genre := [{ genre_id := 2, genre_name := "Drama" }] }]
        "u1" (StoreBehavior.completesAt 0) (StoreBehavior.completesAt 0)
      = RecResp.ok [movieOfRank "tt9" 9] ["Action"] 1) ∧
    (["Action"] = sampleUser.favourite_genres.map (fun g => g.genre_name) ∧
     (["Action"] : List String) ≠ [] ∧
     (∀ m ∈ [movieOfRank "tt9" 9],
        (∃ g ∈ m.genre, g.genre_name ∈ ["Action"]) ∧
        ∃ r, m.ranking = some r ∧ 6 ≤ r.ranking_value) ∧
     SortedByRankingDesc [movieOfRank "tt9" 9] ∧
     ([movieOfRank "tt9" 9] : List Movie).length ≤ 10) :=
  ⟨by decide, by decide, by decide,
   getRecommendedMovies_spec [sampleUser]
     [movieOfRank "tt9" 9, movieOfRank "tt5" 5,
      { movieOfRank "tt8" 8 with genre := [{ genre_id := 2, genre_name := "Drama" }] }]
     "u1" (StoreBehavior.completesAt 0) (StoreBehavior.completesAt 0)
     sampleUser [movieOfRank "tt9" 9] ["Action"] 1
     (by decide) (by decide) (by decide)⟩

/-- C6: for every user that exists and has an empty favourite-genres list,
the recommendation handler returns the defined empty-state success response
(HTTP 200), not an error. -/
theorem getRecommendedMovies_emptyState (userStore : List User)
    (movieStore : List Movie) (userId : String) (bU bM : StoreBehavior)
    (user : User)
    (hid : userId ≠ "")
    (hu : getUserById userStore userId bU = some user)
    (he : user.favourite_genres = []) :
    GetRecommendedMovies userStore movieStore userId bU bM
      = RecResp.emptyState ∧
    RecResp.emptyState.status = 200 := by
  unfold GetRecommendedMovies
  have hid2 : (userId == "") = false := by
    simpa using hid
  rw [if_neg (by simp [hid2]), hu]
  simp only [he]
  exact ⟨rfl, rfl⟩

/-- A sample user with no favourite genres, for the C6 witness. -/
def sampleUserNoGenres : User :=
  { sampleUser with user_id := "u2", email := "u2@x.y", favourite_genres := [] }

/-- Witness for C6: the concrete user u2 exists and has no favourite genres;
the handler answers the empty-state 200 response. -/
theorem getRecommendedMovies_emptyState_witness :
    ("u2" : String) ≠ "" ∧
    getUserById [sampleUserNoGenres] "u2" (StoreBehavior.completesAt 0)
      = some sampleUserNoGenres ∧
    sampleUserNoGenres.favourite_genres = [] ∧
    (GetRecommendedMovies [sampleUserNoGenres] [movieOfRank "tt9" 9] "u2"
       (StoreBehavior.completesAt 0) (StoreBehavior.completesAt 0)
       = RecResp.emptyState ∧
     RecResp.emptyState.status = 200) :=
  ⟨by decide, by decide, by decide,
   getRecommendedMovies_emptyState [sampleUserNoGenres] [movieOfRank "tt9" 9]
     "u2" (StoreBehavior.completesAt 0) (StoreBehavior.completesAt 0)
     sampleUserNoGenres (by decide) (by decide) (by decide)⟩

theorem updateFirstMatch_mem {id : String} {f : Movie → Movie}
    {store : List Movie} (h : store.any (fun m => m.imdb_id == id) = true) :
    ∃ m, m ∈ store ∧ m.imdb_id = id ∧ f m ∈ updateFirstMatch id f store := by
  induction store with
  | nil => simp at h
  | cons x xs ih =>
    by_cases hx : (x.imdb_id == id) = true
    · refine ⟨x, List.mem_cons_self x xs, by simpa using hx, ?_⟩
      simp [updateFirstMatch, hx]
    · have h2 : xs.any (fun m => m.imdb_id == id) = true := by
        simp only [List.any_cons, Bool.or_eq_true] at h
        rcases h with h | h
        · exact absurd h hx
        · exact h
      obtain ⟨m, hm, hmid, hf⟩ := ih h2
      refine ⟨m, List.mem_cons_of_mem _ hm, hmid, ?_⟩
      simp only [updateFirstMatch, if_neg hx]
      exact List.mem_cons_of_mem _ hf

/-- C2: the rating-name threshold table behind updateAdminReview, and the
validation window of the rating: a rating in 1..10 is accepted and the stored
and returned ranking name is derived by the table; a rating outside 1..10 is
rejected as a validation error with the store untouched. -/
theorem adminReviewUpdate_rating_spec (store : List Movie) (movieId : String)
    (req : AdminReviewRequest) (b : StoreBehavior)
    (hid : movieId ≠ "") (hrev : req.admin_review ≠ "") :
    (∀ r : Int,
       (9 ≤ r → getRatingName r = "excellent") ∧
       (7 ≤ r → r < 9 → getRatingName r = "good") ∧
       (5 ≤ r → r < 7 → getRatingName r = "average") ∧
       (3 ≤ r → r < 5 → getRatingName r = "poor") ∧
       (r < 3 → getRatingName r = "terrible")) ∧
    (1 ≤ req.rating → req.rating ≤ 10 →
       ∀ a rr n store2,
         AdminReviewUpdate store movieId (some req) b
           = (AdminResp.ok a rr n, store2) →
         n = getRatingName req.rating ∧ rr = req.rating ∧
         ∃ m, m ∈ store ∧ m.imdb_id = movieId ∧
           applyAdminUpdate req (getRatingName req.rating) m ∈ store2 ∧
           (applyAdminUpdate req (getRatingName req.rating) m).ranking
             = some { ranking_value := req.rating,
                      ranking_name := getRatingName req.rating }) ∧
    ((req.rating < 1 ∨ 10 < req.rating) →
       AdminReviewUpdate store movieId (some req) b
         = (AdminResp.validationFailed validatorErrorText, store)) := by
  have hidb : (movieId == "") = false := by simpa using hid
  refine ⟨?_, ?_, ?_⟩
  · intro r
    refine ⟨?_, ?_, ?_, ?_, ?_⟩
    · intro h9
      unfold getRatingName
      rw [if_pos h9]
    · intro h7 h9
      unfold getRatingName
      rw [if_neg (by omega), if_pos h7]
    · intro h5 h7
      unfold getRatingName
      rw [if_neg (by omega), if_neg (by omega), if_pos h5]
    · intro h3 h5
      unfold getRatingName
      rw [if_neg (by omega), if_neg (by omega), if_neg (by omega), if_pos h3]
    · intro h3
      unfold getRatingName
      rw [if_neg (by omega), if_neg (by omega), if_neg (by omega),
        if_neg (by omega)]
  · intro h1 h10 a rr n store2 heq
    have hval : validateAdminReviewRequest req = true := by
      unfold validateAdminReviewRequest
      simp only [Bool.and_eq_true, bne_iff_ne, ne_eq, decide_eq_true_eq]
      refine ⟨⟨⟨hrev, by omega⟩, h1⟩, h10⟩
    unfold AdminReviewUpdate at heq
    rw [hidb] at heq
    simp only [Bool.false_eq_true, if_false, hval, Bool.not_true] at heq
    cases b with
    | failsAt t e => simp at heq
    | hangs => simp at heq
    | completesAt t =>
      by_cases hany : (store.any (fun m => m.imdb_id == movieId)) = true
      · rw [if_pos hany] at heq
        rw [Prod.mk.injEq] at heq
        obtain ⟨hresp, hstore⟩ := heq
        rw [AdminResp.ok.injEq] at hresp
        obtain ⟨ha, hrr, hn⟩ := hresp
        refine ⟨hn.symm, hrr.symm, ?_⟩
        obtain ⟨m, hm, hmid, hf⟩ :=
          updateFirstMatch_mem (f := applyAdminUpdate req (getRatingName req.rating)) hany
        refine ⟨m, hm, hmid, ?_, rfl⟩
        rw [← hstore]
        exact hf
      · rw [if_neg hany] at heq
        simp at heq
  · intro hinv
    have hvf : validateAdminReviewRequest req = false := by
      rcases Bool.eq_false_or_eq_true (validateAdminReviewRequest req) with hb | hb
      · exfalso
        unfold validateAdminReviewRequest at hb
        simp only [Bool.and_eq_true, bne_iff_ne, ne_eq, decide_eq_true_eq] at hb
        obtain ⟨⟨⟨-, hz⟩, hlo⟩, hhi⟩ := hb
        rcases hinv with h | h <;> omega
      · exact hb
    unfold AdminReviewUpdate
    rw [hidb]
    simp [hvf]

/-- The concrete review request of the C2 witness. -/
def c2Req : AdminReviewRequest :=
  { admin_review := "Great movie", rating := 9 }

/-- The concrete one-movie catalog of the C2 witness. -/
def c2Store : List Movie := [movieOfRank "tt1" 2]

/-- Witness for C2 at a concrete store and request (rating 9 on movie tt1). -/
theorem adminReviewUpdate_rating_spec_witness :
    ("tt1" : String) ≠ "" ∧ c2Req.admin_review ≠ "" ∧
    ((∀ r : Int,
        (9 ≤ r → getRatingName r = "excellent") ∧
        (7 ≤ r → r < 9 → getRatingName r = "good") ∧
        (5 ≤ r → r < 7 → getRatingName r = "average") ∧
        (3 ≤ r → r < 5 → getRatingName r = "poor") ∧
        (r < 3 → getRatingName r = "terrible")) ∧
     (1 ≤ c2Req.rating → c2Req.rating ≤ 10 →
        ∀ a rr n store2,
          AdminReviewUpdate c2Store "tt1" (some c2Req)
              (StoreBehavior.completesAt 0)
            = (AdminResp.ok a rr n, store2) →
          n = getRatingName c2Req.rating ∧ rr = c2Req.rating ∧
          ∃ m, m ∈ c2Store ∧ m.imdb_id = "tt1" ∧
            applyAdminUpdate c2Req (getRatingName c2Req.rating) m ∈ store2 ∧
            (applyAdminUpdate c2Req (getRatingName c2Req.rating) m).ranking
              = some { ranking_value := c2Req.rating,
                       ranking_name := getRatingName c2Req.rating }) ∧
     ((c2Req.rating < 1 ∨ 10 < c2Req.rating) →
        AdminReviewUpdate c2Store "tt1" (some c2Req)
            (StoreBehavior.completesAt 0)
          = (AdminResp.validationFailed validatorErrorText, c2Store))) :=
  ⟨by decide, by decide,
   adminReviewUpdate_rating_spec c2Store "tt1" c2Req
     (StoreBehavior.completesAt 0) (by decide) (by decide)⟩

theorem hashPassword_ne_empty (p : String) : HashPassword p ≠ "" := by
  intro h
  have hlen := congrArg String.length h
  rw [HashPassword, String.length_append] at hlen
  simp at hlen
  exact absurd hlen.1 (by decide)

theorem compareHash_empty_false (p : String) :
    compareHashAndPassword "" p = false := by
  unfold compareHashAndPassword
  exact beq_eq_false_iff_ne.mpr fun h => hashPassword_ne_empty p h.symm

/-- C3: for every registration attempt whose email already matches an
existing user record, the outcome is the duplicate-email conflict (HTTP 409)
and no new user document is inserted, under any store behaviour. -/
theorem registerUser_duplicate_email (store : List User) (user : User)
    (newId : String) (now t : Nat)
    (ht : t < externalTimeoutSeconds)
    (hdup : ∃ u ∈ store, u.email = user.email) :
    (RegisterUser store (some user) newId now
       (StoreBehavior.completesAt t)).resp
      = RegisterResp.conflict duplicateEmailText ∧
    ((RegisterUser store (some user) newId now
        (StoreBehavior.completesAt t)).resp).status = 409 ∧
    (∀ b, (RegisterUser store (some user) newId now b).store = store) := by
  have hcnt : 0 < store.countP (fun u => u.email == user.email) := by
    rw [List.countP_pos_iff]
    obtain ⟨u, hu, he⟩ := hdup
    exact ⟨u, hu, by simpa using he⟩
  have hcore : ∀ hashed,
      registerWorkCore store user hashed newId now
        = (WorkerMsg.fail duplicateEmailText, store) := by
    intro hashed
    unfold registerWorkCore
    rw [if_pos hcnt]
  have hresp : (RegisterUser store (some user) newId now
      (StoreBehavior.completesAt t)).resp
        = RegisterResp.conflict duplicateEmailText := by
    simp [RegisterUser, hcore, boundedRace, ht]
  refine ⟨hresp, by rw [hresp]; rfl, ?_⟩
  intro b
  cases b with
  | completesAt s => simp [RegisterUser, hcore]
  | failsAt s e => simp [RegisterUser]
  | hangs => simp [RegisterUser]

/-- The candidate of the C3 witness: a second user reusing the email of the
sample user. -/
def dupCandidate : User :=
  { sampleUser with
    user_id := ""
    first_name := "Eve"
    last_name := "M"
    password := "pw2" }

/-- Witness for C3: registering the concrete candidate against a store that
already holds a user with the same email answers 409 and leaves the store
unchanged under every behaviour. -/
theorem registerUser_duplicate_email_witness :
    0 < externalTimeoutSeconds ∧
    (∃ u ∈ [sampleUser], u.email = dupCandidate.email) ∧
    ((RegisterUser [sampleUser] (some dupCandidate) "newid" 5
        (StoreBehavior.completesAt 0)).resp
       = RegisterResp.conflict duplicateEmailText ∧
     ((RegisterUser [sampleUser] (some dupCandidate) "newid" 5
         (StoreBehavior.completesAt 0)).resp).status = 409 ∧
     (∀ b, (RegisterUser [sampleUser] (some dupCandidate) "newid" 5 b).store
        = [sampleUser])) :=
  ⟨by decide, by decide,
   registerUser_duplicate_email [sampleUser] dupCandidate "newid" 5 0
     (by decide) (by decide)⟩

/-- Counterexample to C1 as stated: at a concrete store and two concrete
login attempts, the failure text for an existing email with a wrong password
is the wrong-password message, while the failure text for a non-existent
email is the invalid-credentials message, and the two texts differ, so the
caller can distinguish which check failed. -/
theorem login_failure_texts_differ_cex :
    (Login [sampleUser] (some { email := "u1@x.y", password := "bad" })
        DecodeMode.fromStore (StoreBehavior.completesAt 0)).resp
      = LoginResp.unauthorized "Wrong Password" ∧
    (Login [sampleUser] (some { email := "nobody@x.y", password := "bad" })
        DecodeMode.fromStore (StoreBehavior.completesAt 0)).resp
      = LoginResp.unauthorized "Invalid credentials" ∧
    ("Wrong Password" : String) ≠ "Invalid credentials" :=
  ⟨by decide, by decide, by decide⟩

/-- C1 amended: both login failures are reported with HTTP status 401, but
with distinct response texts: the invalid-credentials message when no record
matches the email, and the wrong-password message when password verification
fails, so the two internal failures are distinguishable by the caller. -/
theorem login_failure_statuses (store : List User) (lg : UserLogin) (t : Nat)
    (ht : t < externalTimeoutSeconds) :
    (findByEmail store lg.email = LookupResult.noDocuments →
       (Login store (some lg) DecodeMode.fromStore
          (StoreBehavior.completesAt t)).resp
         = LoginResp.unauthorized "Invalid credentials") ∧
    (∀ u, findByEmail store lg.email = LookupResult.found u →
       compareHashAndPassword u.password lg.password = false →
       (Login store (some lg) DecodeMode.fromStore
          (StoreBehavior.completesAt t)).resp
         = LoginResp.unauthorized "Wrong Password") ∧
    (LoginResp.unauthorized "Invalid credentials").status = 401 ∧
    (LoginResp.unauthorized "Wrong Password").status = 401 ∧
    ("Invalid credentials" : String) ≠ "Wrong Password" := by
  refine ⟨?_, ?_, rfl, rfl, by decide⟩
  · intro hnd
    have hcore : loginWorkCore store (findByEmail store lg.email) lg
        = (WorkerMsg.fail "Invalid credentials", store) := by
      rw [hnd]
      rfl
    simp [Login, hcore, boundedRace, ht]
  · intro u hfu hcmp
    have hcore : loginWorkCore store (findByEmail store lg.email) lg
        = (WorkerMsg.fail "Wrong Password", store) := by
      rw [hfu]
      unfold loginWorkCore
      simp [hcmp]
    simp [Login, hcore, boundedRace, ht]

/-- Witness for the amended C1 at a concrete store and login attempt. -/
theorem login_failure_statuses_witness :
    0 < externalTimeoutSeconds ∧
    ((findByEmail [sampleUser] ({ email := "u1@x.y", password := "bad" } : UserLogin).email
        = LookupResult.noDocuments →
       (Login [sampleUser] (some { email := "u1@x.y", password := "bad" })
          DecodeMode.fromStore (StoreBehavior.completesAt 0)).resp
         = LoginResp.unauthorized "Invalid credentials") ∧
     (∀ u, findByEmail [sampleUser]
          ({ email := "u1@x.y", password := "bad" } : UserLogin).email
          = LookupResult.found u →
        compareHashAndPassword u.password
          ({ email := "u1@x.y", password := "bad" } : UserLogin).password = false →
        (Login [sampleUser] (some { email := "u1@x.y", password := "bad" })
           DecodeMode.fromStore (StoreBehavior.completesAt 0)).resp
          = LoginResp.unauthorized "Wrong Password") ∧
     (LoginResp.unauthorized "Invalid credentials").status = 401 ∧
     (LoginResp.unauthorized "Wrong Password").status = 401 ∧
     ("Invalid credentials" : String) ≠ "Wrong Password") :=
  ⟨by decide,
   login_failure_statuses [sampleUser] { email := "u1@x.y", password := "bad" }
     0 (by decide)⟩

/-- C10: when decoding the login lookup fails with any error other than the
no-matching-document condition, the handler proceeds to compare the password
against the empty hash of the zero-valued record, so the failure surfaces as an
authentication failure (HTTP 401) and never as a server error (HTTP 500). -/
theorem login_decode_error_auth_failure (store : List User) (lg : UserLogin)
    (e : String) (t : Nat) (ht : t < externalTimeoutSeconds) :
    (Login store (some lg) (DecodeMode.decodeError e)
       (StoreBehavior.completesAt t)).resp
      = LoginResp.unauthorized "Wrong Password" ∧
    ((Login store (some lg) (DecodeMode.decodeError e)
        (StoreBehavior.completesAt t)).resp).status = 401 ∧
    (∀ b, ((Login store (some lg) (DecodeMode.decodeError e) b).resp).status
       ≠ 500) := by
  have hcore : loginWorkCore store (LookupResult.otherError e) lg
      = (WorkerMsg.fail "Wrong Password", store) := by
    unfold loginWorkCore
    simp [zeroUser, compareHash_empty_false]
  have hresp : (Login store (some lg) (DecodeMode.decodeError e)
      (StoreBehavior.completesAt t)).resp
        = LoginResp.unauthorized "Wrong Password" := by
    simp [Login, hcore, boundedRace, ht]
  refine ⟨hresp, by rw [hresp]; rfl, ?_⟩
  intro b
  cases b with
  | completesAt s =>
    by_cases hs : s < externalTimeoutSeconds
    · simp [Login, hcore, boundedRace, hs, LoginResp.status]
    · simp [Login, hcore, boundedRace, hs, LoginResp.status]
  | failsAt s e2 =>
    by_cases hs : s < externalTimeoutSeconds
    · simp [Login, boundedRace, hs, LoginResp.status]
    · simp [Login, boundedRace, hs, LoginResp.status]
  | hangs =>
    simp [Login, boundedRace, LoginResp.status]

/-- Witness for C10 at a concrete store, login attempt and decode error. -/
theorem login_decode_error_auth_failure_witness :
    0 < externalTimeoutSeconds ∧
    ((Login [sampleUser] (some { email := "u1@x.y", password := "pw1" })
        (DecodeMode.decodeError "connection reset")
        (StoreBehavior.completesAt 0)).resp
       = LoginResp.unauthorized "Wrong Password" ∧
     ((Login [sampleUser] (some { email := "u1@x.y", password := "pw1" })
         (DecodeMode.decodeError "connection reset")
         (StoreBehavior.completesAt 0)).resp).status = 401 ∧
     (∀ b, ((Login [sampleUser] (some { email := "u1@x.y", password := "pw1" })
          (DecodeMode.decodeError "connection reset") b).resp).status ≠ 500)) :=
  ⟨by decide,
   login_decode_error_auth_failure [sampleUser]
     { email := "u1@x.y", password := "pw1" } "connection reset" 0 (by decide)⟩

/-- The candidate of the C7 counterexample: binds from well-formed JSON but
violates the modelled field constraints (empty first name), with an email not
yet in the store. -/
def invalidCandidate : User :=
  { zeroUser with email := "new@x.y", password := "pw", last_name := "L" }

/-- Counterexample to C7 as stated: at a concrete registration input that
passes JSON binding but violates the field constraints, the handler has
already spawned the concurrent unit of work (which runs the uniqueness count
against the store first), and the constraint violation is resolved through
the error channel as a 500 response, not synchronously before the spawn. -/
theorem register_validation_in_worker_cex :
    validateUser (registeredUser invalidCandidate
      (HashPassword invalidCandidate.password) "id1" 0) = false ∧
    (RegisterUser [] (some invalidCandidate) "id1" 0
       (StoreBehavior.completesAt 0)).spawned = true ∧
    (RegisterUser [] (some invalidCandidate) "id1" 0
       (StoreBehavior.completesAt 0)).resp
      = RegisterResp.serverError validatorErrorText ∧
    (RegisterResp.serverError validatorErrorText).status = 500 :=
  ⟨by decide, by decide, by decide, by decide⟩

/-- C7 amended: malformed JSON is rejected synchronously before any
concurrent unit of work in every handler, and the movie-creation handler also
validates field constraints synchronously; but the registration handler runs
its field-constraint validation inside the spawned unit of work, after the
uniqueness count, and such a violation surfaces through the error channel as
a 500 response. -/
theorem validation_sync_amended :
    (∀ (store : List Movie) b,
       (MakeMovies store none b).spawned = false ∧
       (MakeMovies store none b).resp = MakeResp.invalidJson) ∧
    (∀ (store : List Movie) movie b, validateMovie movie = false →
       (MakeMovies store (some movie) b).spawned = false ∧
       (MakeMovies store (some movie) b).resp
         = MakeResp.validationFailed validatorErrorText) ∧
    (∀ (store : List User) newId now b,
       (RegisterUser store none newId now b).spawned = false ∧
       (RegisterUser store none newId now b).resp = RegisterResp.invalidJson) ∧
    (∀ (store : List User) dec b,
       (Login store none dec b).spawned = false ∧
       (Login store none dec b).resp = LoginResp.invalidJson) ∧
    (∀ (store : List User) (user : User) newId now t,
       t < externalTimeoutSeconds →
       store.countP (fun u => u.email == user.email) = 0 →
       validateUser (registeredUser user (HashPassword user.password)
         newId now) = false →
       (RegisterUser store (some user) newId now
          (StoreBehavior.completesAt t)).spawned = true ∧
       (RegisterUser store (some user) newId now
          (StoreBehavior.completesAt t)).resp
         = RegisterResp.serverError validatorErrorText) := by
  refine ⟨?_, ?_, ?_, ?_, ?_⟩
  · intro store b
    exact ⟨rfl, rfl⟩
  · intro store movie b hv
    constructor
    · simp [MakeMovies, hv]
    · simp [MakeMovies, hv]
  · intro store newId now b
    exact ⟨rfl, rfl⟩
  · intro store dec b
    exact ⟨rfl, rfl⟩
  · intro store user newId now t ht hcnt hval
    have hcore : registerWorkCore store user (HashPassword user.password)
        newId now = (WorkerMsg.fail validatorErrorText, store) := by
      unfold registerWorkCore
      rw [if_neg (by omega)]
      simp [hval]
    constructor
    · simp [RegisterUser]
    · simp [RegisterUser, hcore, boundedRace, ht, duplicateEmailText,
        validatorErrorText]

/-- Witness for the amended C7 at the concrete invalid candidate. -/
theorem validation_sync_amended_witness :
    0 < externalTimeoutSeconds ∧
    ([] : List User).countP
      (fun u => u.email == invalidCandidate.email) = 0 ∧
    validateUser (registeredUser invalidCandidate
      (HashPassword invalidCandidate.password) "id1" 0) = false ∧
    ((RegisterUser [] (some invalidCandidate) "id1" 0
        (StoreBehavior.completesAt 0)).spawned = true ∧
     (RegisterUser [] (some invalidCandidate) "id1" 0
        (StoreBehavior.completesAt 0)).resp
       = RegisterResp.serverError validatorErrorText) :=
  ⟨by decide, by decide, by decide,
   validation_sync_amended.2.2.2.2 [] invalidCandidate "id1" 0 0
     (by decide) (by decide) (by decide)⟩

/-- Counterexample to C8 as stated: with a hanging store, the admin review
update handler answers 500 (the synchronous UpdateOne fails at its internal
deadline), not the 408 that the race pattern yields in the list handler on
the same hanging store, so not every data-access handler delegates to the
bounded race. -/
theorem adminReview_no_race_cex :
    ((AdminReviewUpdate [movieOfRank "tt1" 2] "tt1" (some c2Req)
        StoreBehavior.hangs).fst).status = 500 ∧
    (GetMovies [movieOfRank "tt1" 2] StoreBehavior.hangs).status = 408 ∧
    (500 : Nat) ≠ 408 :=
  ⟨by decide, by decide, by decide⟩

/-- C8 amended: every data-access handler except AdminReviewUpdate and the
user lookup inside the recommendation handler races its unit of work against
the external timeout, so a hanging store resolves those handlers to 408;
AdminReviewUpdate performs its update synchronously under the internal
deadline, answering 500 on a hanging store, and no 408 response exists for
it; a hanging user lookup in the recommendation handler surfaces as 404. -/
theorem bounded_race_coverage :
    (∀ store, GetMovies store StoreBehavior.hangs = MoviesResp.timedOut ∧
       (GetMovies store StoreBehavior.hangs).status = 408) ∧
    (∀ store id, (GetMovie store id StoreBehavior.hangs).status = 408) ∧
    (∀ store, (GetTopRatedMovies store StoreBehavior.hangs).status = 408) ∧
    (∀ store g, g ≠ "" →
       ((GetMoviesByGenre store g StoreBehavior.hangs).resp).status = 408) ∧
    (∀ store m, validateMovie m = true →
       ((MakeMovies store (some m) StoreBehavior.hangs).resp).status = 408) ∧
    (∀ store u newId now,
       ((RegisterUser store (some u) newId now StoreBehavior.hangs).resp).status
         = 408) ∧
    (∀ store lg dec,
       ((Login store (some lg) dec StoreBehavior.hangs).resp).status = 408) ∧
    (∀ us ms uid u bU, uid ≠ "" → getUserById us uid bU = some u →
       u.favourite_genres ≠ [] →
       (GetRecommendedMovies us ms uid bU StoreBehavior.hangs).status = 408) ∧
    (∀ us ms uid bM, uid ≠ "" →
       (GetRecommendedMovies us ms uid StoreBehavior.hangs bM).status = 404) ∧
    (∀ store id req, id ≠ "" → validateAdminReviewRequest req = true →
       (AdminReviewUpdate store id (some req) StoreBehavior.hangs).fst
         = AdminResp.updateError) ∧
    (∀ r : AdminResp, r.status ≠ 408) := by
  refine ⟨?_, ?_, ?_, ?_, ?_, ?_, ?_, ?_, ?_, ?_, ?_⟩
  · intro store
    exact ⟨rfl, rfl⟩
  · intro store id
    rfl
  · intro store
    rfl
  · intro store g hg
    have hgb : (g == "") = false := by simpa using hg
    simp [GetMoviesByGenre, hgb, boundedRace, completionOf, GenreResp.status]
  · intro store m hv
    simp [MakeMovies, hv, boundedRace, completionOf, MakeResp.status]
  · intro store u newId now
    rfl
  · intro store lg dec
    rfl
  · intro us ms uid u bU hid hu hne
    have hidb : (uid == "") = false := by simpa using hid
    have hempty : (u.favourite_genres.map (fun g => g.genre_name)).isEmpty
        = false := by
      cases hfav : u.favourite_genres with
      | nil => exact absurd hfav hne
      | cons a l => simp [hfav]
    unfold GetRecommendedMovies
    rw [if_neg (by simp [hidb]), hu]
    simp only [hempty, Bool.false_eq_true, if_false]
    rfl
  · intro us ms uid bM hid
    have hidb : (uid == "") = false := by simpa using hid
    unfold GetRecommendedMovies
    rw [if_neg (by simp [hidb])]
    rfl
  · intro store id req hid hv
    have hidb : (id == "") = false := by simpa using hid
    unfold AdminReviewUpdate
    rw [hidb]
    simp [hv]
  · intro r
    cases r <;> simp [AdminResp.status]

/-- Witness for the amended C8 at concrete stores and requests. -/
theorem bounded_race_coverage_witness :
    ("Action" : String) ≠ "" ∧
    validateMovie (movieOfRank "tt1" 2) = true ∧
    ("u1" : String) ≠ "" ∧
    getUserById [sampleUser] "u1" (StoreBehavior.completesAt 0)
      = some sampleUser ∧
    sampleUser.favourite_genres ≠ [] ∧
    validateAdminReviewRequest c2Req = true ∧
    (((GetMoviesByGenre [] "Action" StoreBehavior.hangs).resp).status = 408 ∧
     ((MakeMovies [] (some (movieOfRank "tt1" 2))
         StoreBehavior.hangs).resp).status = 408 ∧
     (GetRecommendedMovies [sampleUser] [] "u1" (StoreBehavior.completesAt 0)
        StoreBehavior.hangs).status = 408 ∧
     (GetRecommendedMovies [sampleUser] [] "u1" StoreBehavior.hangs
        (StoreBehavior.completesAt 0)).status = 404 ∧
     (AdminReviewUpdate [] "tt1" (some c2Req) StoreBehavior.hangs).fst
       = AdminResp.updateError) :=
  ⟨by decide, by decide, by decide, by decide, by decide, by decide,
   bounded_race_coverage.2.2.2.1 [] "Action" (by decide),
   bounded_race_coverage.2.2.2.2.1 [] (movieOfRank "tt1" 2) (by decide),
   bounded_race_coverage.2.2.2.2.2.2.2.1 [sampleUser] [] "u1" sampleUser
     (StoreBehavior.completesAt 0) (by decide) (by decide) (by decide),
   bounded_race_coverage.2.2.2.2.2.2.2.2.1 [sampleUser] [] "u1"
     (StoreBehavior.completesAt 0) (by decide),
   bounded_race_coverage.2.2.2.2.2.2.2.2.2.1 [] "tt1" c2Req (by decide)
     (by decide)⟩

/-- C9: the bounded worker race returns exactly one of a typed success, a
typed failure or the timeout signal, whichever resolves first; a unit of work
that never completes resolves to the timeout at exactly the configured
10-second external deadline, which the list handler reports as 408. -/
theorem boundedRace_spec :
    externalTimeoutSeconds = 10 ∧
    (∀ (α : Type) (c : Option (Nat × WorkerMsg α)),
       (∃ v, (boundedRace c).fst = RaceOutcome.ok v) ∨
       (∃ e, (boundedRace c).fst = RaceOutcome.fail e) ∨
       (boundedRace c).fst = RaceOutcome.timedOut) ∧
    (∀ (α : Type), boundedRace (α := α) none
       = (RaceOutcome.timedOut, externalTimeoutSeconds)) ∧
    (∀ (α : Type) (t : Nat) (v : α), t < externalTimeoutSeconds →
       boundedRace (some (t, WorkerMsg.ok v)) = (RaceOutcome.ok v, t)) ∧
    (∀ (α : Type) (t : Nat) (e : String), t < externalTimeoutSeconds →
       boundedRace (some (t, WorkerMsg.fail e))
         = (RaceOutcome.fail (α := α) e, t)) ∧
    (∀ (α : Type) (t : Nat) (m : WorkerMsg α), externalTimeoutSeconds ≤ t →
       boundedRace (some (t, m))
         = (RaceOutcome.timedOut, externalTimeoutSeconds)) ∧
    (∀ store : List Movie,
       GetMovies store StoreBehavior.hangs = MoviesResp.timedOut) := by
  refine ⟨rfl, ?_, ?_, ?_, ?_, ?_, ?_⟩
  · intro α c
    match c with
    | none => exact Or.inr (Or.inr rfl)
    | some (t, m) =>
      by_cases ht : t < externalTimeoutSeconds
      · cases m with
        | ok v =>
          exact Or.inl ⟨v, by simp [boundedRace, ht]⟩
        | fail e =>
          exact Or.inr (Or.inl ⟨e, by simp [boundedRace, ht]⟩)
      · exact Or.inr (Or.inr (by simp [boundedRace, ht]))
  · intro α
    rfl
  · intro α t v ht
    simp [boundedRace, ht]
  · intro α t e ht
    simp [boundedRace, ht]
  · intro α t m ht
    have ht2 : ¬ t < externalTimeoutSeconds := by omega
    cases m with
    | ok v => simp [boundedRace, ht2]
    | fail e => simp [boundedRace, ht2]
  · intro store
    rfl

/-- Witness for C9 at concrete completions. -/
theorem boundedRace_spec_witness :
    (3 : Nat) < externalTimeoutSeconds ∧
    externalTimeoutSeconds ≤ 12 ∧
    (boundedRace (some (3, WorkerMsg.ok true)) = (RaceOutcome.ok true, 3) ∧
     boundedRace (some (3, WorkerMsg.fail "boom"))
       = (RaceOutcome.fail (α := Bool) "boom", 3) ∧
     boundedRace (some (12, WorkerMsg.ok true))
       = (RaceOutcome.timedOut, externalTimeoutSeconds) ∧
     boundedRace (α := Bool) none
       = (RaceOutcome.timedOut, externalTimeoutSeconds)) :=
  ⟨by decide, by decide,
   boundedRace_spec.2.2.2.1 Bool 3 true (by decide),
   boundedRace_spec.2.2.2.2.1 Bool 3 "boom" (by decide),
   boundedRace_spec.2.2.2.2.2.1 Bool 12 (WorkerMsg.ok true) (by decide),
   boundedRace_spec.2.2.1 Bool⟩

end MagicStream
